import Mathlib

/-!
# Verification of the builder lifecycle orchestrator

A shallow embedding of the TypeScript sources of the `build-push-action`
builder orchestrator (`src/main.ts`, `src/setup_builder.ts`,
`src/buildkit_validation.ts`, `src/context.ts`).  Effectful operations
(subprocess execution, network calls) are modelled by explicit environment
records carrying the outcome of each external call, and each embedded
function returns, next to its value, a trace of the externally visible
actions it performed.
-/

namespace BuildPush

/-! ### JavaScript-level primitives -/

/-- A JavaScript `Error` value as observed by the retry helper in
`src/main.ts`: the data inspected by the code are the message and the
optional numeric `status` field. -/
structure JSError where
  msg : String
  status : Option Nat
deriving Repr, DecidableEq

/-- Whether `pat` occurs at the start of `s` (on explicit character lists, so that it
evaluates by structural recursion). -/
def charsStartWith : List Char → List Char → Bool
  | _, [] => true
  | [], _ :: _ => false
  | c :: cs, p :: ps => c == p && charsStartWith cs ps

/-- Whether `pat` occurs somewhere in `s` (on explicit character lists). -/
def charsContain (s pat : List Char) : Bool :=
  match s with
  | [] => charsStartWith [] pat
  | _ :: cs => charsStartWith s pat || charsContain cs pat

/-- JavaScript `String.prototype.includes`. -/
def jsIncludes (s pat : String) : Bool := charsContain s.data pat.data

/-- The rate-limit classification used by `retryWithBackoff`
(`src/main.ts:38`): `error.message includes the digits 429, or error.status equals 429`. -/
def is429 (e : JSError) : Bool := jsIncludes e.msg ("429") || e.status == some 429

/-! ### `retryWithBackoff` (`src/main.ts:31-50`) -/

/-- The observable outcome of one `retryWithBackoff` execution: the returned
value or propagated error, the number of invocations of `operation`, and the
list of backoff sleeps (in milliseconds, in order). -/
structure RetryResult (α : Type) where
  result : Except JSError α
  calls : Nat
  sleeps : List Nat
deriving Repr

/-- The `for` loop of `retryWithBackoff` (`src/main.ts:33-48`).  `attempt` is
the loop index, `lastError` the running `lastError` variable, and `remaining`
the number of loop iterations left (`maxRetries - attempt`).  Each iteration
calls `op attempt`; on success the value is returned; on a failure classified
as 429 strictly before the final attempt it sleeps
`initialBackoffMs * 2 ^ attempt` and continues; any other failure (non-429,
or 429 on the final attempt) is rethrown unchanged.  A loop that runs out of
iterations throws the running `lastError` (`src/main.ts:49`). -/
def retryLoop (op : Nat → Except JSError α) (maxRetries initialBackoffMs : Nat) :
    Nat → JSError → Nat → RetryResult α
  | _attempt, lastError, 0 => ⟨.error lastError, 0, []⟩
  | attempt, _last, remaining + 1 =>
    match op attempt with
    | .ok v => ⟨.ok v, 1, []⟩
    | .error e =>
      if is429 e = true ∧ attempt < maxRetries - 1 then
        let rest := retryLoop op maxRetries initialBackoffMs (attempt + 1) e remaining
        ⟨rest.result, rest.calls + 1, initialBackoffMs * 2 ^ attempt :: rest.sleeps⟩
      else ⟨.error e, 1, []⟩

/-- Embedding of `retryWithBackoff(operation, maxRetries, initialBackoffMs)` from
`src/main.ts:31`: runs the loop from attempt `0` with the initial
`lastError` (the error with message `No error occurred`). -/
def retryWithBackoff (op : Nat → Except JSError α) (maxRetries initialBackoffMs : Nat) :
    RetryResult α :=
  retryLoop op maxRetries initialBackoffMs 0 ⟨"No error occurred", none⟩ maxRetries

/-- An operation that fails once with a rate-limited (429) error and then
succeeds: one consecutive transient failure (`N = 1`). -/
def opRateLimitedOnce : Nat → Except JSError Nat :=
  fun i => if i = 0 then .error ⟨"rate limited 429", none⟩ else .ok 7


/-! ### Effect model

Each embedded function is interpreted as a `Proc α`: the result of one
(deterministic) execution given an environment record fixing the outcome of
every external call, paired with the ordered trace of externally visible
actions it performed. -/

/-- Errors thrown by the embedded code. -/
inductive Err where
  | msg (s : String)
  | execFailed (code : Nat)
  | workersNotReady (found : Nat) (required : Nat)
deriving Repr, DecidableEq

/-- Externally visible actions of the orchestrator. -/
inductive Action where
  | joinTailnet
  | leaveTailnet
  | blkid (device : String)
  | resize2fs (device : String)
  | mkfsExt4 (device : String)
  | mountDevice (device : String)
  | startDaemon (addr : String)
  | reportSetupFailure
  | createRemoteBuilder (addr : String)
  | useBuilderGlobal
  | inspectBuilder
  | createLocalBuilder (cmd : String)
  | runBuild
  | pruneCache
  | pkillDaemon
  | unmountVolume
  | reportBuildCompleted (buildId : Option String) (exposeId : String)
  | reportBuildFailed (buildId : Option String) (exposeId : String)
  | commitStickyDisk (exposeId : String)
  | commitVolume (exposeId : String)
deriving Repr, DecidableEq

/-- One executed step of the embedded program: its result (or thrown error)
together with the trace of actions it performed, in order. -/
def Proc (α : Type) : Type := Except Err α × List Action

/-- The result component of a step. -/
def Proc.result (p : Proc α) : Except Err α := p.1

/-- The action trace of a step. -/
def Proc.trace (p : Proc α) : List Action := p.2

/-- Sequencing: the second step runs only if the first did not throw. -/
def Proc.bindP (p : Proc α) (f : α → Proc β) : Proc β :=
  match p with
  | (.ok a, t) => ((f a).1, t ++ (f a).2)
  | (.error e, t) => (.error e, t)

instance : Monad Proc where
  pure a := (.ok a, [])
  bind := Proc.bindP

/-- Perform an externally visible action. -/
def emit (a : Action) : Proc Unit := (.ok (), [a])

/-- The throw operation of the embedding. -/
def throwE (e : Err) : Proc α := (.error e, [])

/-- Lift a pure outcome. -/
def liftE (r : Except Err α) : Proc α := (r, [])

/-- JavaScript `try { p } catch (e) { h e }`. -/
def tryCatchE (p : Proc α) (h : Err → Proc α) : Proc α :=
  match p with
  | (.ok a, t) => (.ok a, t)
  | (.error e, t) => ((h e).1, t ++ (h e).2)

/-- JavaScript `try { p } finally { fin }` for a `fin` that does not throw
(`leaveTailnet` swallows all its errors). -/
def finallyE (p : Proc α) (fin : Proc Unit) : Proc α :=
  (p.1, p.2 ++ fin.2)

/-! ### `setup_builder.ts` -/

/-- Embedding of `BUILDKIT_DAEMON_ADDR` (`src/setup_builder.ts:10`). -/
def BUILDKIT_DAEMON_ADDR : String := "tcp://127.0.0.1:1234"

/-- Embedding of `const nativeMultiPlatformBuildsEnabled = false && (platforms?.length ?? 0 > 1)`
(`src/setup_builder.ts:254`).  The left operand is the constant `false`, so
the conjunction short-circuits; the right operand is kept for faithfulness:
by JavaScript precedence it parses as `platforms?.length ?? (0 > 1)`, whose
truthiness is `platforms.length ≠ 0` when `platforms` is present and `false`
otherwise. -/
def nativeMultiPlatformBuildsEnabled (platforms : Option (List String)) : Bool :=
  false && (match platforms with
    | none => false
    | some l => l.length != 0)

/-- Leading characters removed by `String.prototype.trim` (the common
whitespace characters occurring in command output). -/
def dropWhiteLeft : List Char → List Char
  | [] => []
  | c :: cs =>
    if c == ' ' || c == '\n' || c == '\t' || c == '\r' then dropWhiteLeft cs else c :: cs

/-- JavaScript `String.prototype.trim` (restricted to ASCII whitespace). -/
def jsTrim (s : String) : String :=
  ⟨(dropWhiteLeft (dropWhiteLeft s.data).reverse).reverse⟩

/-- Model of `parseInt` on a digit string: `none` models `NaN` (empty or non-digit
input), used only to compare with `0`. -/
def parseNatAux : List Char → Nat → Option Nat
  | [], acc => some acc
  | c :: cs, acc => if c.isDigit then parseNatAux cs (acc * 10 + (c.toNat - 48)) else none

/-- Model of `parseInt` of a trimmed string (digits only; `NaN` is `none`). -/
def jsParseNat (s : String) : Option Nat :=
  match s.data with
  | [] => none
  | l => parseNatAux l 0

/-- Lift a subprocess outcome: reject (throw) on a non-zero exit code. -/
def exceptStep (r : Except Nat Unit) : Proc Unit :=
  match r with
  | .ok _ => pure ()
  | .error c => throwE (.execFailed c)

/-- Environment for `maybeFormatBlockDevice`: outcomes of the `blkid`,
`resize2fs` and `mkfs.ext4` subprocesses (`.error code` is a non-zero exit
rejecting the promise). -/
structure FormatEnv where
  blkidResult : Except Nat String
  resize2fsResult : Except Nat Unit
  mkfsResult : Except Nat Unit

/-- The format branch of `maybeFormatBlockDevice` (`src/setup_builder.ts:45-49`):
`mkfs.ext4` the device; a failure propagates (the outer catch rethrows). -/
def formatWithExt4 (env : FormatEnv) (device : String) : Proc String := do
  emit (.mkfsExt4 device)
  match env.mkfsResult with
  | .ok _ => pure device
  | .error c => throwE (.execFailed c)

/-- Embedding of `maybeFormatBlockDevice` (`src/setup_builder.ts:24-54`): probe the
filesystem type with `blkid`; if the trimmed output is `ext4`, attempt a
`resize2fs` (whose failure is caught and only logged, ts:35-37) and return
the device; if `blkid` fails (no filesystem) or reports another type, format
the device. -/
def maybeFormatBlockDevice (env : FormatEnv) (device : String) : Proc String := do
  emit (.blkid device)
  match env.blkidResult with
  | .ok out =>
    if jsTrim out == "ext4" then do
      emit (.resize2fs device)
      pure device
    else formatWithExt4 env device
  | .error _ => formatWithExt4 env device

/-- Environment for `startAndConfigureBuildkitd` and its helpers.
`workerPolls` and `finalPoll` carry, per invocation of
`buildctl debug workers`, either a non-zero exit code or the number of output
lines (the line count of the trimmed output: one header line plus one line per
worker).  The 30-second polling deadline is modelled by the finiteness of
`workerPolls`. -/
structure SetupBuilderEnv where
  tailscaleToken : Option String
  joinResult : Except Nat Unit
  tailscaleIP : Option String
  startBuildkitdResult : Except Nat Unit
  workerPolls : List (Except Nat Nat)
  finalPoll : Except Nat Nat

/-- Embedding of `joinTailnet` (`src/setup_builder.ts:205-219`): skip silently when the
token is unset (absent, empty or the literal `unset`); otherwise run
`tailscale up`, throwing on failure. -/
def joinTailnet (env : SetupBuilderEnv) : Proc Unit :=
  match env.tailscaleToken with
  | none => pure ()
  | some tok =>
    if tok == "" || tok == "unset" then pure ()
    else do
      emit .joinTailnet
      match env.joinResult with
      | .ok _ => pure ()
      | .error _ => throwE (.msg ("Failed to join tailnet"))

/-- Embedding of `leaveTailnet` (`src/setup_builder.ts:221-244`): checks membership and
leaves; every error is caught and reduced to a warning, so the step never
throws.  The subprocess details are collapsed into the single action. -/
def leaveTailnet : Proc Unit := (.ok (), [.leaveTailnet])

/-- Embedding of `startBuildkitd` (`src/setup_builder.ts:109-165`): writes the TOML
configuration, spawns the daemon (detached when `setupOnly`), and waits up to
10 seconds for the process to appear; those mechanics are collapsed into
`startBuildkitdResult`.  On success the function returns `addr` (ts:152). -/
def startBuildkitd (env : SetupBuilderEnv) (_parallelism : Nat) (addr : String)
    (_setupOnly : Bool) : Proc String := do
  emit (.startDaemon addr)
  match env.startBuildkitdResult with
  | .ok _ => pure addr
  | .error c => throwE (.execFailed c)

/-- Embedding of `requiredWorkers` (`src/setup_builder.ts:280,295`): 2 for a native
multi-platform build, 1 otherwise. -/
def requiredWorkersFor (native : Bool) : Nat := if native then 2 else 1

/-- The 30-second readiness polling loop (`src/setup_builder.ts:275-289`).
Its only effect is to break out early; the function result is decided by the
final check that follows, so only the break condition is recorded. -/
def workerLoopBreaksEarly (required : Nat) (polls : List (Except Nat Nat)) : Bool :=
  polls.any (fun p =>
    match p with
    | .ok lines => lines > required
    | .error _ => false)

/-- The final worker check (`src/setup_builder.ts:291-302`): query the worker
list once more; with `lines` output lines and `lines ≤ requiredWorkers`,
throw the workers-not-ready error carrying `lines - 1` (the observed worker
count) and the required count; a failing query has its error rethrown
(ts:299-301 warns and rethrows). -/
def finalWorkerCheck (required : Nat) (poll : Except Nat Nat) : Except Err Unit :=
  match poll with
  | .ok lines =>
    if lines ≤ required then .error (.workersNotReady (lines - 1) required)
    else .ok ()
  | .error c => .error (.execFailed c)

/-- Embedding of `startAndConfigureBuildkitd` (`src/setup_builder.ts:251-305`): resolve
the bind address (tailnet path only when `nativeMultiPlatformBuildsEnabled`),
start the daemon, poll workers, and re-check readiness. -/
def resolveBuildkitdAddr (env : SetupBuilderEnv) (native : Bool) : Proc String :=
  if native then do
    joinTailnet env
    match env.tailscaleIP with
    | some ip => pure ("tcp://" ++ ip ++ ":1234")
    | none => throwE (.msg ("Failed to get tailscale IP for multi-platform build"))
  else pure BUILDKIT_DAEMON_ADDR

def startAndConfigureBuildkitd (env : SetupBuilderEnv) (parallelism : Nat)
    (setupOnly : Bool) (platforms : Option (List String)) : Proc String := do
  let native := nativeMultiPlatformBuildsEnabled platforms
  let buildkitdAddr ← resolveBuildkitdAddr env native
  let addr ← startBuildkitd env parallelism buildkitdAddr setupOnly
  let _ := workerLoopBreaksEarly (requiredWorkersFor native) env.workerPolls
  let _ ← liftE (finalWorkerCheck (requiredWorkersFor native) env.finalPoll)
  pure addr

/-- Embedding of `pruneBuildkitCache` (`src/setup_builder.ts:314-323`): run the age-based
prune; the outcome is irrelevant to its callers (both wrap it in a try/catch
that only warns). -/
def pruneBuildkitCache : Proc Unit := (.ok (), [.pruneCache])

/-- The `getStickyDisk` response (`src/setup_builder.ts:185-202`): fields of
the control-plane reply, each possibly absent. -/
structure AgentResponse where
  exposeId : Option String
  diskIdentifier : Option String
deriving Repr, DecidableEq

/-- Environment for `setupStickyDisk`: outcomes of the agent request, the
device formatting subprocesses, the `reportBuild` call and the mount. -/
structure StickyEnv where
  getStickyDiskResult : Except Nat AgentResponse
  formatEnv : FormatEnv
  reportBuildResult : Except Nat (Option String)
  mountResult : Except Nat Unit

/-- Embedding of `getStickyDisk` (`src/setup_builder.ts:167-203`): client creation, the
`up` liveness probe and the request are collapsed into
`getStickyDiskResult`; on success any absent field of the reply defaults to the
empty string (ts:199-202). -/
def getStickyDisk (env : StickyEnv) : Proc (String × String) :=
  match env.getStickyDiskResult with
  | .error c => throwE (.execFailed c)
  | .ok resp => pure (resp.exposeId.getD (""), resp.diskIdentifier.getD (""))

/-- The value+trace result of `setupStickyDisk`. -/
structure StickyDiskResult where
  device : String
  buildId : Option String
  exposeId : String
deriving Repr, DecidableEq

/-- Embedding of `setupStickyDisk` (`src/setup_builder.ts:332-378`): obtain the sticky
disk (defaulting the device to `/dev/vdb` when the agent omits it, ts:343-346),
format/resize it, report the build to the control plane unless `setupOnly`,
and mount it.  The inode-usage sampling (ts:362-372) only warns and is
omitted from the trace. -/
def reportBuildIfNeeded (env : StickyEnv) (setupOnly : Bool) : Proc (Option String) :=
  if !setupOnly then
    match env.reportBuildResult with
    | .ok b => pure b
    | .error c => (throwE (.execFailed c) : Proc (Option String))
  else pure none

def setupStickyDisk (env : StickyEnv) (_dockerfilePath : String) (setupOnly : Bool) :
    Proc StickyDiskResult := do
  let ids ← getStickyDisk env
  let exposeId := ids.1
  let device0 := ids.2
  let device1 := if device0 == "" then ("/dev/vdb") else device0
  let device ← maybeFormatBlockDevice env.formatEnv device1
  let buildId ← reportBuildIfNeeded env setupOnly
  emit (.mountDevice device)
  match env.mountResult with
  | .ok _ => pure (⟨device, buildId, exposeId⟩ : StickyDiskResult)
  | .error c => throwE (.execFailed c)

/-! ### `src/buildkit_validation.ts` -/

/-- The database files probed by `validateBuildkitState`
(`src/buildkit_validation.ts:40`). -/
def dbFiles : List String :=
  ["history.db", "cache.db", "snapshots.db", "metadata_v2.db", "containerdmeta.db"]

/-- Environment for `validateBuildkitState`: the `pgrep buildkitd` outcome,
the lock-file `find` outcome, and the `stat -c%s` output per database file
(the shell appends a fallback echo of zero, so a missing file shows as the digit zero). -/
structure ValidationEnv where
  pgrepResult : Except Nat String
  lockFindResult : Except Nat String
  statResult : String → Except Nat String

/-- The zero-byte scan of `validateBuildkitState`
(`src/buildkit_validation.ts:40-53`): some probed database file reports a
parsed size of `0` (a `stat` failure is caught and skipped; `parseInt`
returning `NaN` never equals `0`). -/
def zeroByteDbDetected (venv : ValidationEnv) : Bool :=
  dbFiles.any (fun db =>
    match venv.statResult db with
    | .ok out => jsParseNat (jsTrim out) == some 0
    | .error _ => false)

/-- Embedding of `validateBuildkitState` (`src/buildkit_validation.ts:13-60`): returns
`false` when `pgrep` finds a live daemon (or fails with a code other than 1),
when the lock-file scan reports remnants, or when a database file is zero
bytes; `true` otherwise. -/
def validateBuildkitState (venv : ValidationEnv) : Bool :=
  match venv.pgrepResult with
  | .ok _ => false
  | .error code =>
    if code != 1 then false
    else if (match venv.lockFindResult with
        | .ok out => jsTrim out != ""
        | .error _ => false) then false
    else if zeroByteDbDetected venv then false
    else true

/-- A corruption/integrity indicator in the sense of the specification: a
still-running daemon process, lock-file remnants, or a zero-byte database
file. -/
def corruptionIndicatorPresent (venv : ValidationEnv) : Prop :=
  (∃ out, venv.pgrepResult = .ok out) ∨
  (∃ out, venv.lockFindResult = .ok out ∧ jsTrim out ≠ "") ∨
  (∃ db, db ∈ dbFiles ∧ ∃ out, venv.statResult db = .ok out ∧ jsParseNat (jsTrim out) = some 0)

/-- Modelled from the spec: `reporter.commitStickyDisk` lives in
`src/reporter.ts`, which is not among the provided sources (only its callers
are).  Per the specification, corruption/integrity indicators are `detected opportunistically before a commit of the volume
lease` and `must block the commit rather than silently persisting a broken
volume`; so the commit of the
volume lease is performed exactly when `validateBuildkitState` passes. -/
def commitStickyDiskImpl (venv : ValidationEnv) (exposeId : String) : Proc Unit :=
  if validateBuildkitState venv then emit (.commitVolume exposeId) else pure ()

/-! ### `src/context.ts` -/

/-- The `Inputs` record (`src/context.ts:27-63`), with TypeScript quoted keys
mapped to camel-case field names. -/
structure Inputs where
  addHosts : List String
  allow : List String
  annotations : List String
  attests : List String
  buildArgs : List String
  buildContexts : List String
  builder : String
  cacheFrom : List String
  cacheTo : List String
  cgroupParent : String
  context : String
  file : String
  labels : List String
  load : Bool
  network : String
  noCache : Bool
  noCacheFilters : List String
  outputs : List String
  platforms : List String
  provenance : String
  pull : Bool
  push : Bool
  sbom : String
  secrets : List String
  secretEnvs : List String
  secretFiles : List String
  shmSize : String
  ssh : List String
  tags : List String
  target : String
  ulimit : List String
  githubToken : String
  nofallback : Bool
  setupOnly : Bool
  buildxVersion : String
deriving Repr, DecidableEq

/-- The runtime value of an `Inputs` property: string, string array or
boolean. -/
inductive JSVal where
  | str (s : String)
  | strs (l : List String)
  | bool (b : Bool)
deriving Repr, DecidableEq

/-- JavaScript truthiness of an `Inputs` property value (arrays are always
truthy; only the empty string and `false` are falsy here). -/
def jsTruthy : JSVal → Bool
  | .str s => s != ""
  | .strs _ => true
  | .bool b => b

/-- Listing of `Object.keys(inputs)` with the associated values, in the insertion order
of the object literal built by `getInputs` (`src/context.ts:65-104`). -/
def inputsPairs (i : Inputs) : List (String × JSVal) :=
  [("add-hosts", .strs i.addHosts), ("allow", .strs i.allow),
    ("annotations", .strs i.annotations), ("attests", .strs i.attests),
    ("build-args", .strs i.buildArgs), ("build-contexts", .strs i.buildContexts),
    ("builder", .str i.builder), ("cache-from", .strs i.cacheFrom),
    ("cache-to", .strs i.cacheTo), ("cgroup-parent", .str i.cgroupParent),
    ("context", .str i.context), ("file", .str i.file), ("labels", .strs i.labels),
    ("load", .bool i.load), ("network", .str i.network), ("no-cache", .bool i.noCache),
    ("no-cache-filters", .strs i.noCacheFilters), ("outputs", .strs i.outputs),
    ("platforms", .strs i.platforms), ("provenance", .str i.provenance),
    ("pull", .bool i.pull), ("push", .bool i.push), ("sbom", .str i.sbom),
    ("secrets", .strs i.secrets), ("secret-envs", .strs i.secretEnvs),
    ("secret-files", .strs i.secretFiles), ("shm-size", .str i.shmSize),
    ("ssh", .strs i.ssh), ("tags", .strs i.tags), ("target", .str i.target),
    ("ulimit", .strs i.ulimit), ("github-token", .str i.githubToken),
    ("nofallback", .bool i.nofallback), ("setupOnly", .bool i.setupOnly),
    ("buildx-version", .str i.buildxVersion)]

/-- Embedding of `sanitizeInputs` (`src/context.ts:130-147`): drop the `github-token`
entry, `false` booleans, empty arrays, and falsy values; keep the rest in
order. -/
def sanitizeInputs (i : Inputs) : List (String × JSVal) :=
  (inputsPairs i).filter (fun kv =>
    !(kv.1 == "github-token")
    && !(match kv.2 with | .bool b => !b | _ => false)
    && !(match kv.2 with | .strs l => l.isEmpty | _ => false)
    && jsTruthy kv.2)

/-! ### `src/main.ts` -/

/-- The value returned by `startBlacksmithBuilder` (`src/main.ts:99`). -/
structure BuilderInfo where
  addr : Option String
  buildId : Option String
  exposeId : String
deriving Repr, DecidableEq

/-- JavaScript falsiness of a `string | null` value. -/
def jsFalsyOpt : Option String → Bool
  | none => true
  | some v => v == ""

/-- Environment for `shutdownBuildkitd`: the `pkill -TERM buildkitd` outcome
(`pkill` exits 1 when no process matched, rejecting the promise), and the
successive `pgrep buildkitd` polls; the 10-second deadline is modelled by the
finiteness of the poll list. -/
structure ShutdownEnv where
  pkillResult : Except Nat Unit
  pgrepPolls : List (Except Nat String)

/-- The polling loop of `shutdownBuildkitd` (`src/main.ts:624-638`): a
successful `pgrep` means the daemon is still alive (sleep and poll again);
exit code 1 means it is gone (success); any other failure is rethrown;
running out of polls is the 10-second timeout. -/
def shutdownPollLoop : List (Except Nat String) → Proc Unit
  | [] => throwE (.msg ("Timed out waiting for buildkitd to shutdown after 10 seconds"))
  | p :: rest =>
    match p with
    | .ok _ => shutdownPollLoop rest
    | .error 1 => pure ()
    | .error c => throwE (.execFailed c)

/-- Embedding of `shutdownBuildkitd` (`src/main.ts:615-645`): send `pkill -TERM` first
(no prior probe); a non-zero `pkill` exit rejects and is rethrown by the
outer catch; otherwise poll until the process is gone. -/
def shutdownBuildkitd (env : ShutdownEnv) : Proc Unit := do
  emit .pkillDaemon
  match env.pkillResult with
  | .error c => throwE (.execFailed c)
  | .ok _ => shutdownPollLoop env.pgrepPolls

/-- Environment for the unmount step: the `mount | grep` probe and the final
`umount` outcome (the 3-attempt retry of `src/main.ts:438-450` is collapsed
into the outcome of its last attempt; every failure of the step is swallowed
with a warning either way). -/
structure UnmountEnv where
  mountGrep : Except Nat String
  umountResult : Except Nat Unit

/-- The sync-and-unmount step of both cleanup phases (`src/main.ts:433-461`
and `src/main.ts:526-552`): if the mount probe reports a non-empty mount
entry, unmount; all errors (including grep exit 1 for nothing-mounted) are
caught and only logged. -/
def unmountStep (env : UnmountEnv) : Proc Unit :=
  tryCatchE
    (do
      match env.mountGrep with
      | .ok out =>
        if out != "" then do
          emit .unmountVolume
          match env.umountResult with
          | .ok _ => pure ()
          | .error c => throwE (.execFailed c)
        else pure ()
      | .error c => throwE (.execFailed c))
    (fun _ => pure ())

/-- Environment for the `main` entry of `src/main.ts`. -/
structure MainEnv where
  dockerfilePath : Option String
  sticky : StickyEnv
  numCPUs : Nat
  builderEnv : SetupBuilderEnv
  createBuilderResult : Except Nat Unit
  useBuilderResult : Except Nat Unit
  inspectResult : Except Nat (Option String)
  createLocalResult : Except Nat Unit
  buildResult : Except Nat Unit
  exportResult : Except Nat Unit
  pgrepMain : Except Nat String
  shutdownEnv : ShutdownEnv
  unmountEnv : UnmountEnv

/-- The `try` block of `startBlacksmithBuilder` (`src/main.ts:100-120`):
resolve the dockerfile path (the empty string when `setupOnly`; a missing path throws
when a build will run), set up the sticky disk, start and configure the
daemon, and return the builder address with the lease identifiers.
`getNumCPUs` never throws (it defaults to 1, `src/setup_builder.ts:56-64`)
and is the `numCPUs` field.  The metric reports (ts:112,118) and
`stateHelper.setExposeId` (ts:119) have no control effect. -/
def startBlacksmithBuilderTry (env : MainEnv) (inputs : Inputs) : Proc BuilderInfo := do
  let dockerfilePath := if inputs.setupOnly then some ("") else env.dockerfilePath
  if !inputs.setupOnly && jsFalsyOpt dockerfilePath then
    throwE (.msg ("Failed to resolve dockerfile path"))
  else do
    let sticky ← setupStickyDisk env.sticky (dockerfilePath.getD ("")) inputs.setupOnly
    let addr ← startAndConfigureBuildkitd env.builderEnv env.numCPUs inputs.setupOnly
      (some inputs.platforms)
    pure (⟨some addr, sticky.buildId, sticky.exposeId⟩ : BuilderInfo)

/-- Embedding of `startBlacksmithBuilder` (`src/main.ts:99-140`): on a setup failure,
report it (`reportBuildPushActionFailure`, ts:124), then rethrow the original
error when `nofallback` is set, or return the null builder
(null address, null build id, empty expose id) otherwise; `leaveTailnet` runs in
the `finally`.  The message classification (ts:126-129) only changes the
warning text, never the control decision. -/
def startBlacksmithBuilder (env : MainEnv) (inputs : Inputs) : Proc BuilderInfo :=
  finallyE
    (tryCatchE (startBlacksmithBuilderTry env inputs)
      (fun e => do
        emit .reportSetupFailure
        if inputs.nofallback then throwE e
        else pure (⟨none, none, ""⟩ : BuilderInfo)))
    leaveTailnet

/-- The local fallback builder creation command (`src/main.ts:236`). -/
def localFallbackCmd : String := "docker buildx create --name local --driver docker-container --use"

/-- The builder configuration phase of `main` (`src/main.ts:202-248`).  With
a builder address: create the remote builder (a failing create throws,
ts:210-212) and, in `setupOnly` mode, set it as the global default.  Without
one: warn, inspect for a configured builder; use it as-is when found,
otherwise create the local docker-container builder (whose failure is
reported via `setFailed` without throwing, ts:240-242; an inspection error
likewise, ts:244-246). -/
def remoteBuilderPhase (env : MainEnv) (inputs : Inputs) (addr : String) : Proc Unit := do
  emit (.createRemoteBuilder addr)
  match env.createBuilderResult with
  | .error c => throwE (.execFailed c)
  | .ok _ =>
    if inputs.setupOnly then do
      emit .useBuilderGlobal
      match env.useBuilderResult with
      | .error c => throwE (.execFailed c)
      | .ok _ => pure ()
    else pure ()

def fallbackBuilderPhase (env : MainEnv) : Proc Unit := do
  emit .inspectBuilder
  match env.inspectResult with
  | .ok (some _) => pure ()
  | .ok none => do
    emit (.createLocalBuilder localFallbackCmd)
    pure ()
  | .error _ => pure ()

def builderSetupPhase (env : MainEnv) (inputs : Inputs) (info : BuilderInfo) : Proc Unit :=
  match info.addr with
  | some addr => remoteBuilderPhase env inputs addr
  | none => fallbackBuilderPhase env

/-- The daemon step of the main cleanup (`src/main.ts:403-430`): probe with
`pgrep`; when a process is found, prune the cache (its failure is contained,
ts:410-413) and shut the daemon down; every error of the step, including exit 1
of the probe for no-process, is caught at ts:423-429 and only logged. -/
def daemonCleanupStep (env : MainEnv) : Proc Unit :=
  tryCatchE
    (do
      match env.pgrepMain with
      | .ok out =>
        if jsTrim out != "" then do
          pruneBuildkitCache
          shutdownBuildkitd env.shutdownEnv
        else pure ()
      | .error c => throwE (.execFailed c))
    (fun _ => pure ())

/-- The build-outcome report of the main cleanup (`src/main.ts:463-469`):
performed only when `builderInfo.addr` is set; reports completion or failure
with the lease identifiers. -/
def reportStep (info : BuilderInfo) (buildError : Option Err) : Proc Unit :=
  if info.addr.isSome then
    if buildError.isNone then emit (.reportBuildCompleted info.buildId info.exposeId)
    else emit (.reportBuildFailed info.buildId info.exposeId)
  else pure ()

/-- The `Cleaning up Blacksmith builder` group (`src/main.ts:393-490`):
export the build record (only without a build error; a failure skips the
rest), then the daemon step, `leaveTailnet`, the unmount step, and the
build-outcome report; any escaped error is caught at ts:470-472 and only
logged. -/
def exportHistoryStep (env : MainEnv) (buildError : Option Err) : Proc Unit :=
  if buildError.isNone then exceptStep env.exportResult else pure ()

def mainCleanup (env : MainEnv) (info : BuilderInfo) (buildError : Option Err) : Proc Unit :=
  tryCatchE
    (do
      exportHistoryStep env buildError
      daemonCleanupStep env
      leaveTailnet
      unmountStep env.unmountEnv
      reportStep info buildError)
    (fun _ => pure ())

/-- The observable outcome of the `main` entry (`src/main.ts:144-496`). -/
structure MainResult where
  trace : List Action
  builderInfo : BuilderInfo
  buildError : Option Err
  exitedEarly : Bool
  stateSetupOnly : Bool
  stateExposeId : String
  final : Except Err Unit

/-- The `main` entry (`src/main.ts:144-496`), from the `Starting Blacksmith
builder` group on (the toolkit/buildx installation preamble has no bearing on
the claims).  `builderInfo` starts as the null builder (null address, null build id,
empty expose id) and is replaced only when `startBlacksmithBuilder` returns;
any error of the `try` block becomes `buildError`, cleanup always runs
(except after the `process.exit(0)` of `setupOnly` mode, ts:266-271, which
skips it), and `buildError` is rethrown after cleanup (ts:493-495).
`stateExposeId` reflects `stateHelper.setExposeId`, called only on the
successful setup path (ts:119) — on the fallback path the state keeps its
default empty string, which equals the returned `exposeId`.  `stateSetupOnly`
reflects `stateHelper.setSetupOnly(true)` (ts:268), reached only just before
the early exit. -/
def mainRun (env : MainEnv) (inputs : Inputs) : MainResult :=
  let started := startBlacksmithBuilder env inputs
  match started.1 with
  | .error e =>
    let cleanup := mainCleanup env ⟨none, none, ""⟩ (some e)
    ⟨started.2 ++ cleanup.2, ⟨none, none, ""⟩, some e, false, false, "", .error e⟩
  | .ok info =>
    let phase := builderSetupPhase env inputs info
    match phase.1 with
    | .error e =>
      let cleanup := mainCleanup env info (some e)
      ⟨started.2 ++ phase.2 ++ cleanup.2, info, some e, false, false, info.exposeId, .error e⟩
    | .ok _ =>
      if inputs.setupOnly then
        ⟨started.2 ++ phase.2, info, none, true, true, info.exposeId, .ok ()⟩
      else
        match env.buildResult with
        | .ok _ =>
          let cleanup := mainCleanup env info none
          ⟨started.2 ++ phase.2 ++ [.runBuild] ++ cleanup.2, info, none, false, false,
            info.exposeId, .ok ()⟩
        | .error c =>
          let cleanup := mainCleanup env info (some (.execFailed c))
          ⟨started.2 ++ phase.2 ++ [.runBuild] ++ cleanup.2, info, some (.execFailed c), false,
            false, info.exposeId, .error (.execFailed c)⟩

/-- Environment for the `post` entry. -/
structure PostEnv where
  pgrepPost : Except Nat String
  shutdownEnv : ShutdownEnv
  unmountEnv : UnmountEnv
  validation : ValidationEnv

/-- The daemon step of the post cleanup (`src/main.ts:503-524`): same probe
guard as in the main cleanup; every error is caught and only logged. -/
def postDaemonStep (env : PostEnv) : Proc Unit :=
  tryCatchE
    (do
      match env.pgrepPost with
      | .ok out =>
        if jsTrim out != "" then do
          pruneBuildkitCache
          shutdownBuildkitd env.shutdownEnv
        else pure ()
      | .error c => throwE (.execFailed c))
    (fun _ => pure ())

/-- The `post` entry (`src/main.ts:498-576`): leave the tailnet, the daemon
step, the unmount step, the temp-directory removal (no modelled action), and
— only when the run was `setupOnly` — commit the sticky disk, skipped with a
warning when the recorded `exposeId` is empty (ts:563-570); the commit call
itself is the spec-modelled `commitStickyDiskImpl`.  Any escaped error is
caught at ts:571-574 and only logged. -/
def postRun (env : PostEnv) (stateSetupOnly : Bool) (stateExposeId : String) : Proc Unit :=
  tryCatchE
    (do
      leaveTailnet
      postDaemonStep env
      unmountStep env.unmountEnv
      if stateSetupOnly then
        if stateExposeId != "" then do
          emit (.commitStickyDisk stateExposeId)
          commitStickyDiskImpl env.validation stateExposeId
        else pure ()
      else pure ())
    (fun _ => pure ())

/-! ### Action classifiers -/

/-- Actions that locate or create the local fallback builder. -/
def Action.isLocalFallbackCfg : Action → Bool
  | .inspectBuilder => true
  | .createLocalBuilder _ => true
  | _ => false

/-- Release/commit/build-outcome-report calls to the control plane. -/
def Action.isLeaseCall : Action → Bool
  | .reportBuildCompleted _ _ => true
  | .reportBuildFailed _ _ => true
  | .commitStickyDisk _ => true
  | .commitVolume _ => true
  | _ => false

/-- Creation of the local fallback builder. -/
def Action.isCreateLocal : Action → Bool
  | .createLocalBuilder _ => true
  | _ => false

/-- Actions that are neither local-fallback configuration nor control-plane
lease calls. -/
def Action.benign (a : Action) : Bool := !a.isLocalFallbackCfg && !a.isLeaseCall

/-! ### Sample environments and inputs (used by concrete instantiations) -/

/-- A device already formatted `ext4` whose `resize2fs` fails. -/
def fmtExt4ResizeFails : FormatEnv := ⟨.ok ("ext4\n"), .error 1, .ok ()⟩

/-- A healthy sticky-disk environment whose agent reply omits `exposeId`. -/
def stickyOkEmptyId : StickyEnv :=
  ⟨.ok ⟨none, some ("/dev/vdb")⟩, fmtExt4ResizeFails, .ok (some ("bid")), .ok ()⟩

/-- A sticky-disk environment whose agent request fails. -/
def stickyFails : StickyEnv := ⟨.error 7, fmtExt4ResizeFails, .ok none, .ok ()⟩

/-- A builder environment where the daemon starts and reports two worker
lines (one header plus one worker). -/
def sbEnvOk : SetupBuilderEnv := ⟨none, .ok (), none, .ok (), [], .ok 2⟩

/-- A builder environment where every worker query reports a single output
line (zero workers). -/
def sbEnvNotReady : SetupBuilderEnv := ⟨none, .ok (), none, .ok (), [.ok 1], .ok 1⟩

/-- A shutdown environment where the daemon disappears after one poll. -/
def shutdownEnvOk : ShutdownEnv := ⟨.ok (), [.error 1]⟩

/-- An unmount environment with nothing mounted. -/
def unmountEnvClean : UnmountEnv := ⟨.error 1, .ok ()⟩

/-- A validation environment with a still-running daemon process. -/
def venvDaemonAlive : ValidationEnv := ⟨.ok ("1234"), .error 1, fun _ => .ok ("4096")⟩

/-- A fully healthy main environment whose lease carries an empty
`exposeId` (the agent omitted it). -/
def mainEnvEmptyLease : MainEnv :=
  { dockerfilePath := some ("Dockerfile")
    sticky := stickyOkEmptyId
    numCPUs := 4
    builderEnv := sbEnvOk
    createBuilderResult := .ok ()
    useBuilderResult := .ok ()
    inspectResult := .ok (some ("blacksmith"))
    createLocalResult := .ok ()
    buildResult := .ok ()
    exportResult := .ok ()
    pgrepMain := .error 1
    shutdownEnv := shutdownEnvOk
    unmountEnv := unmountEnvClean }

/-- A main environment whose sticky-disk acquisition fails. -/
def mainEnvSetupFails : MainEnv :=
  { mainEnvEmptyLease with sticky := stickyFails }

/-- A main environment whose setup fails and where no builder is configured
(inspection finds none). -/
def mainEnvSetupFailsNoBuilder : MainEnv :=
  { mainEnvSetupFails with inspectResult := .ok none }

/-- A post environment with no daemon running. -/
def postEnvClean : PostEnv := ⟨.error 1, shutdownEnvOk, unmountEnvClean, venvDaemonAlive⟩

/-- Baseline inputs: a plain single-platform build. -/
def inputsBase : Inputs :=
  ⟨[], [], [], [], [], [], "", [], [], "", ".", "", [], false, "", false, [], [], [], "",
    false, false, "", [], [], [], "", [], ["user/app:latest"], "", [], "tok", false, false, ""⟩

/-- Baseline inputs with `nofallback` set. -/
def inputsNoFallback : Inputs := { inputsBase with nofallback := true }

/-! ### Proofs -/

lemma retryLoop_ok {α : Type} {op : Nat → Except JSError α} {attempt : Nat} {v : α}
    (maxRetries initialBackoffMs : Nat) (last : JSError) (r : Nat)
    (hop : op attempt = .ok v) :
    retryLoop op maxRetries initialBackoffMs attempt last (r + 1) = ⟨.ok v, 1, []⟩ := by
  conv_lhs => rw [retryLoop, hop]

lemma retryLoop_err {α : Type} {op : Nat → Except JSError α} {attempt : Nat} {e0 : JSError}
    (maxRetries initialBackoffMs : Nat) (last : JSError) (r : Nat)
    (hop : op attempt = .error e0) :
    retryLoop op maxRetries initialBackoffMs attempt last (r + 1) =
      if is429 e0 = true ∧ attempt < maxRetries - 1 then
        ⟨(retryLoop op maxRetries initialBackoffMs (attempt + 1) e0 r).result,
          (retryLoop op maxRetries initialBackoffMs (attempt + 1) e0 r).calls + 1,
          initialBackoffMs * 2 ^ attempt ::
            (retryLoop op maxRetries initialBackoffMs (attempt + 1) e0 r).sleeps⟩
      else ⟨.error e0, 1, []⟩ := by
  conv_lhs => rw [retryLoop, hop]

lemma retryLoop_exhaust (op : Nat → Except JSError α) (e : Nat → JSError)
    (maxR base : Nat)
    (hfail : ∀ i, i < maxR → op i = .error (e i))
    (h429 : ∀ i, i < maxR → is429 (e i) = true) :
    ∀ r attempt last, attempt + r = maxR → 1 ≤ r →
      retryLoop op maxR base attempt last r =
        ⟨.error (e (maxR - 1)), r, (List.range' attempt (r - 1)).map (fun i => base * 2 ^ i)⟩ := by
  intro r
  induction r with
  | zero => intro attempt last _ h; omega
  | succ n ih =>
    intro attempt last hsum _
    have hlt : attempt < maxR := by omega
    have hop := hfail attempt hlt
    have h4 := h429 attempt hlt
    cases n with
    | zero =>
      have hA : attempt = maxR - 1 := by omega
      rw [retryLoop_err maxR base last 0 hop, if_neg (fun h => absurd h.2 (by omega))]
      subst hA
      rfl
    | succ m =>
      have hcond : attempt < maxR - 1 := by omega
      have ihr := ih (attempt + 1) (e attempt) (by omega) (by omega)
      rw [retryLoop_err maxR base last (m + 1) hop, if_pos ⟨h4, hcond⟩, ihr]
      have hrange : List.range' attempt (m + 1) = attempt :: List.range' (attempt + 1) m :=
        List.range'_succ attempt m 1
      simp [hrange]

lemma retryLoop_stop (op : Nat → Except JSError α) (e : Nat → JSError)
    (N maxR base : Nat) (hN : N < maxR)
    (hfail : ∀ i, i < N → op i = .error (e i))
    (h429 : ∀ i, i < N → is429 (e i) = true)
    (hstop : (∃ v, op N = .ok v) ∨ ∃ e2, op N = .error e2 ∧ is429 e2 = false) :
    ∀ r attempt last, attempt + r = maxR → attempt ≤ N →
      retryLoop op maxR base attempt last r =
        ⟨op N, N + 1 - attempt, (List.range' attempt (N - attempt)).map (fun i => base * 2 ^ i)⟩ := by
  intro r
  induction r with
  | zero => intro attempt last hsum hle; omega
  | succ n ih =>
    intro attempt last hsum hle
    rcases eq_or_lt_of_le hle with hEq | hlt
    · subst hEq
      rcases hstop with ⟨v, hv⟩ | ⟨e2, he2, hn429⟩
      · rw [retryLoop_ok maxR base last n hv, hv]
        simp [Nat.sub_self]
      · rw [retryLoop_err maxR base last n he2,
          if_neg (by intro h; rw [hn429] at h; simp at h), he2]
        simp [Nat.sub_self]
    · have hop := hfail attempt hlt
      have h4 := h429 attempt hlt
      have hcond : attempt < maxR - 1 := by omega
      have ihr := ih (attempt + 1) (e attempt) (by omega) (by omega)
      rw [retryLoop_err maxR base last n hop, if_pos ⟨h4, hcond⟩, ihr]
      have hsplit : N - attempt = (N - (attempt + 1)) + 1 := by omega
      have hrange : List.range' attempt (N - attempt) =
          attempt :: List.range' (attempt + 1) (N - (attempt + 1)) := by
        rw [hsplit]
        exact List.range'_succ attempt (N - (attempt + 1)) 1
      rw [hrange]
      simp only [List.map_cons, RetryResult.mk.injEq, true_and, and_true]
      omega

/-- C5 (amended).  With `N` consecutive rate-limit-classified (429) failures:
if `N ≥ maxRetries` the operation is invoked exactly `maxRetries` times and
the last error is propagated unchanged; if `N < maxRetries` and the next call
succeeds, the operation is invoked `N + 1` times (the `min N maxRetries`
failing invocations plus the succeeding one); a non-retryable error at
attempt `N` is propagated unchanged after `N + 1` invocations.  In every case
the sleep after failing attempt `i` is `initialBackoffMs * 2 ^ i` and there
is no sleep after the final attempt (the sleep list is one element shorter
than the call count). -/
theorem retryWithBackoff_characterization
    (op : Nat → Except JSError Nat) (e : Nat → JSError) (N maxR base : Nat)
    (hmax : 1 ≤ maxR)
    (hfail : ∀ i, i < min N maxR → op i = .error (e i))
    (h429 : ∀ i, i < min N maxR → is429 (e i) = true) :
    (maxR ≤ N →
      retryWithBackoff op maxR base =
        ⟨.error (e (maxR - 1)), maxR, (List.range (maxR - 1)).map (fun i => base * 2 ^ i)⟩) ∧
    (N < maxR → ∀ v, op N = .ok v →
      retryWithBackoff op maxR base =
        ⟨.ok v, N + 1, (List.range N).map (fun i => base * 2 ^ i)⟩) ∧
    (N < maxR → ∀ e2, op N = .error e2 → is429 e2 = false →
      retryWithBackoff op maxR base =
        ⟨.error e2, N + 1, (List.range N).map (fun i => base * 2 ^ i)⟩) := by
  refine ⟨?_, ?_, ?_⟩
  · intro hge
    have hmin : min N maxR = maxR := by omega
    rw [hmin] at hfail h429
    have h := retryLoop_exhaust op e maxR base hfail h429 maxR 0 ⟨"No error occurred", none⟩
      (by omega) hmax
    rw [retryWithBackoff, h, List.range_eq_range']
  · intro hlt v hv
    have hmin : min N maxR = N := by omega
    rw [hmin] at hfail h429
    have h := retryLoop_stop op e N maxR base hlt hfail h429 (Or.inl ⟨v, hv⟩) maxR 0
      ⟨"No error occurred", none⟩ (by omega) (by omega)
    rw [retryWithBackoff, h, hv, List.range_eq_range']
    simp
  · intro hlt e2 he2 hn
    have hmin : min N maxR = N := by omega
    rw [hmin] at hfail h429
    have h := retryLoop_stop op e N maxR base hlt hfail h429 (Or.inr ⟨e2, he2, hn⟩) maxR 0
      ⟨"No error occurred", none⟩ (by omega) (by omega)
    rw [retryWithBackoff, h, he2, List.range_eq_range']
    simp

/-- C5 counterexample to the literal claim: with `N = 1` consecutive
rate-limit failures and `maxRetries = 5`, the operation is invoked `2` times
(the failing attempt plus the succeeding retry), not `min (N, maxRetries) = 1`
times. -/
theorem retryWithBackoff_calls_counterexample :
    (retryWithBackoff opRateLimitedOnce 5 200).calls = 2 ∧ 2 ≠ min 1 5 := by
  constructor
  · rfl
  · decide

/-- Witness for `retryWithBackoff_characterization` at a concrete input. -/
theorem retryWithBackoff_characterization_witness :
    retryWithBackoff opRateLimitedOnce 5 200 =
      ⟨.ok 7, 1 + 1, (List.range 1).map (fun i => 200 * 2 ^ i)⟩ := by
  have h := retryWithBackoff_characterization opRateLimitedOnce
    (fun _ => ⟨"rate limited 429", none⟩) 1 5 200 (by omega)
    (by
      intro i hi
      have hz : i = 0 := by omega
      subst hz
      rfl)
    (by
      intro i hi
      have hz : i = 0 := by omega
      subst hz
      rfl)
  exact h.2.1 (by omega) 7 rfl


/-! #### Effect-model lemmas -/

lemma bind_defP (p : Proc α) (f : α → Proc β) : p >>= f = Proc.bindP p f := rfl

lemma pure_defP (a : α) : (pure a : Proc α) = (.ok a, []) := rfl

lemma trace_mk (r : Except Err α) (t : List Action) : Proc.trace (r, t) = t := rfl

lemma result_mk (r : Except Err α) (t : List Action) : Proc.result (r, t) = r := rfl

lemma mem_bindP {p : Proc α} {f : α → Proc β} {a : Action}
    (ha : a ∈ (p >>= f).trace) : a ∈ p.trace ∨ ∃ x, a ∈ (f x).trace := by
  rcases p with ⟨r, t⟩
  cases r with
  | ok v =>
    simp only [bind_defP, Proc.bindP, Proc.trace, List.mem_append] at ha
    rcases ha with h | h
    · exact Or.inl h
    · exact Or.inr ⟨v, h⟩
  | error e =>
    exact Or.inl ha

lemma mem_tryCatchE {p : Proc α} {h : Err → Proc α} {a : Action}
    (ha : a ∈ (tryCatchE p h).trace) : a ∈ p.trace ∨ ∃ e, a ∈ (h e).trace := by
  rcases p with ⟨r, t⟩
  cases r with
  | ok v => exact Or.inl ha
  | error e =>
    simp only [tryCatchE, Proc.trace, List.mem_append] at ha
    rcases ha with h1 | h1
    · exact Or.inl h1
    · exact Or.inr ⟨e, h1⟩

lemma mem_finallyE {p : Proc α} {fin : Proc Unit} {a : Action}
    (ha : a ∈ (finallyE p fin).trace) : a ∈ p.trace ∨ a ∈ fin.trace := by
  rcases p with ⟨r, t⟩
  simpa [finallyE, Proc.trace, List.mem_append] using ha

lemma mem_emit {b a : Action} (ha : a ∈ (emit b).trace) : a = b := by
  simpa [emit, Proc.trace] using ha

/-! #### `setup_builder.ts` lemmas -/

lemma native_false (platforms : Option (List String)) :
    nativeMultiPlatformBuildsEnabled platforms = false := by
  simp [nativeMultiPlatformBuildsEnabled]

lemma trace_formatWithExt4 (fe : FormatEnv) (dev : String) :
    (formatWithExt4 fe dev).trace = [.mkfsExt4 dev] := by
  rcases fe with ⟨b, rz, mk⟩
  cases mk <;> rfl

lemma trace_maybeFormat (fe : FormatEnv) (dev : String) :
    (maybeFormatBlockDevice fe dev).trace = [.blkid dev, .resize2fs dev] ∨
    (maybeFormatBlockDevice fe dev).trace = [.blkid dev, .mkfsExt4 dev] := by
  rcases fe with ⟨b, rz, mk⟩
  cases b with
  | error c =>
    right
    cases mk <;> rfl
  | ok out =>
    by_cases hx : (jsTrim out == "ext4") = true
    · left
      simp [maybeFormatBlockDevice, hx, bind_defP, Proc.bindP, emit, pure_defP, Proc.trace]
    · right
      rw [Bool.not_eq_true] at hx
      cases mk <;>
        simp [maybeFormatBlockDevice, hx, formatWithExt4, bind_defP, Proc.bindP, emit,
          pure_defP, throwE, Proc.trace]

/-- C8: for a device already formatted `ext4`, `maybeFormatBlockDevice` skips
the destructive format, attempts the non-destructive resize, and returns the
device successfully — for every environment, in particular when the resize
fails (the result does not depend on `resize2fsResult`); conversely, the
format branch (`mkfs.ext4`) is reached only when no `ext4` filesystem was
detected. -/
theorem maybeFormatBlockDevice_spec (env : FormatEnv) (device : String) :
    ((∃ out, env.blkidResult = .ok out ∧ jsTrim out = "ext4") →
      maybeFormatBlockDevice env device =
        (.ok device, [.blkid device, .resize2fs device])) ∧
    (.mkfsExt4 device ∈ (maybeFormatBlockDevice env device).trace →
      ¬ ∃ out, env.blkidResult = .ok out ∧ jsTrim out = "ext4") := by
  constructor
  · rintro ⟨out, hout, hx⟩
    simp [maybeFormatBlockDevice, hout, hx, bind_defP, Proc.bindP, emit, pure_defP]
  · intro hmem
    rintro ⟨out, hout, hx⟩
    rw [show (maybeFormatBlockDevice env device).trace = [.blkid device, .resize2fs device] by
      simp [maybeFormatBlockDevice, hout, hx, bind_defP, Proc.bindP, emit, pure_defP,
        Proc.trace]] at hmem
    simp at hmem

/-- Witness for `maybeFormatBlockDevice_spec`: a device formatted `ext4`
whose resize fails still makes `prepare` succeed without formatting. -/
theorem maybeFormatBlockDevice_spec_witness :
    maybeFormatBlockDevice fmtExt4ResizeFails ("/dev/vdb") =
      (.ok ("/dev/vdb"), [.blkid ("/dev/vdb"), .resize2fs ("/dev/vdb")]) :=
  (maybeFormatBlockDevice_spec fmtExt4ResizeFails ("/dev/vdb")).1 ⟨"ext4\n", rfl, rfl⟩

lemma resolveBuildkitdAddr_false (env : SetupBuilderEnv) :
    resolveBuildkitdAddr env false = (.ok BUILDKIT_DAEMON_ADDR, []) := by
  rw [resolveBuildkitdAddr, if_neg (by simp)]
  rfl

/-- C4: the bind-address resolution of `startAndConfigureBuildkitd` always
takes the loopback path: the multi-platform gate is the constant `false`
even for multi-element platform lists, the overlay network is never joined,
the daemon is only ever started on `tcp://127.0.0.1:1234`, and a successful
result is that loopback address. -/
theorem startAndConfigureBuildkitd_loopback (env : SetupBuilderEnv) (parallelism : Nat)
    (setupOnly : Bool) (platforms : Option (List String)) :
    nativeMultiPlatformBuildsEnabled platforms = false ∧
    Action.joinTailnet ∉ (startAndConfigureBuildkitd env parallelism setupOnly platforms).trace ∧
    (∀ s, Action.startDaemon s ∈
        (startAndConfigureBuildkitd env parallelism setupOnly platforms).trace →
      s = BUILDKIT_DAEMON_ADDR) ∧
    (∀ s, (startAndConfigureBuildkitd env parallelism setupOnly platforms).result = .ok s →
      s = BUILDKIT_DAEMON_ADDR) := by
  have hn := native_false platforms
  rcases env with ⟨tok, jr, ip, sr, wp, fp⟩
  refine ⟨hn, ?_⟩
  cases sr with
  | error c =>
    constructor
    · simp [startAndConfigureBuildkitd, hn, resolveBuildkitdAddr_false, startBuildkitd, bind_defP, Proc.bindP, emit,
        pure_defP, throwE, Proc.trace]
    constructor
    · intro s hs
      simp [startAndConfigureBuildkitd, hn, resolveBuildkitdAddr_false, startBuildkitd, bind_defP, Proc.bindP, emit,
        pure_defP, throwE, Proc.trace] at hs
      exact hs
    · intro s hs
      simp [startAndConfigureBuildkitd, hn, resolveBuildkitdAddr_false, startBuildkitd, bind_defP, Proc.bindP, emit,
        pure_defP, throwE, Proc.result] at hs
  | ok u =>
    cases fp with
    | error c =>
      constructor
      · simp [startAndConfigureBuildkitd, hn, resolveBuildkitdAddr_false, startBuildkitd, finalWorkerCheck, liftE,
          bind_defP, Proc.bindP, emit, pure_defP, throwE, Proc.trace]
      constructor
      · intro s hs
        simp [startAndConfigureBuildkitd, hn, resolveBuildkitdAddr_false, startBuildkitd, finalWorkerCheck, liftE,
          bind_defP, Proc.bindP, emit, pure_defP, throwE, Proc.trace] at hs
        exact hs
      · intro s hs
        simp [startAndConfigureBuildkitd, hn, resolveBuildkitdAddr_false, startBuildkitd, finalWorkerCheck, liftE,
          bind_defP, Proc.bindP, emit, pure_defP, throwE, Proc.result] at hs
    | ok L =>
      by_cases hL : L ≤ requiredWorkersFor false
      · constructor
        · simp [startAndConfigureBuildkitd, hn, resolveBuildkitdAddr_false, startBuildkitd, finalWorkerCheck, hL, liftE,
            bind_defP, Proc.bindP, emit, pure_defP, throwE, Proc.trace]
        constructor
        · intro s hs
          simp [startAndConfigureBuildkitd, hn, resolveBuildkitdAddr_false, startBuildkitd, finalWorkerCheck, hL, liftE,
            bind_defP, Proc.bindP, emit, pure_defP, throwE, Proc.trace] at hs
          exact hs
        · intro s hs
          simp [startAndConfigureBuildkitd, hn, resolveBuildkitdAddr_false, startBuildkitd, finalWorkerCheck, hL, liftE,
            bind_defP, Proc.bindP, emit, pure_defP, throwE, Proc.result] at hs
      · constructor
        · simp [startAndConfigureBuildkitd, hn, resolveBuildkitdAddr_false, startBuildkitd, finalWorkerCheck, hL, liftE,
            bind_defP, Proc.bindP, emit, pure_defP, throwE, Proc.trace]
        constructor
        · intro s hs
          simp [startAndConfigureBuildkitd, hn, resolveBuildkitdAddr_false, startBuildkitd, finalWorkerCheck, hL, liftE,
            bind_defP, Proc.bindP, emit, pure_defP, throwE, Proc.trace] at hs
          exact hs
        · intro s hs
          simp [startAndConfigureBuildkitd, hn, resolveBuildkitdAddr_false, startBuildkitd, finalWorkerCheck, hL, liftE,
            bind_defP, Proc.bindP, emit, pure_defP, throwE, Proc.result] at hs
          exact hs.symm

/-- Witness for `startAndConfigureBuildkitd_loopback`: the gate evaluates to
`false` even for a two-platform request. -/
theorem startAndConfigureBuildkitd_loopback_witness :
    nativeMultiPlatformBuildsEnabled (some ["linux/amd64", "linux/arm64"]) = false :=
  (startAndConfigureBuildkitd_loopback sbEnvOk 4 false
    (some ["linux/amd64", "linux/arm64"])).1

/-- C7: when the daemon starts but every worker query, including the final
check, observes no more than the required worker count within the polling
deadline, `startAndConfigureBuildkitd` fails with the workers-not-ready
error carrying the last observed worker count (`lines - 1`, where `lines` is
the line count of the final query) and the required count. -/
theorem workersNotReady_spec (env : SetupBuilderEnv) (parallelism : Nat)
    (setupOnly : Bool) (platforms : Option (List String)) (L : Nat)
    (hstart : env.startBuildkitdResult = .ok ())
    (hloop : ∀ p ∈ env.workerPolls, ∀ n, p = .ok n →
      n ≤ requiredWorkersFor (nativeMultiPlatformBuildsEnabled platforms))
    (hfinal : env.finalPoll = .ok L)
    (hL : L ≤ requiredWorkersFor (nativeMultiPlatformBuildsEnabled platforms)) :
    (startAndConfigureBuildkitd env parallelism setupOnly platforms).result =
      .error (.workersNotReady (L - 1)
        (requiredWorkersFor (nativeMultiPlatformBuildsEnabled platforms))) := by
  have hn := native_false platforms
  rw [hn] at hL ⊢
  simp [startAndConfigureBuildkitd, hn, resolveBuildkitdAddr_false, startBuildkitd, hstart, hfinal, finalWorkerCheck, hL,
    liftE, bind_defP, Proc.bindP, emit, pure_defP, throwE, Proc.result]

/-- Witness for `workersNotReady_spec`: a run whose every query reports one
output line (zero workers) fails carrying the count `0`. -/
theorem workersNotReady_spec_witness :
    (startAndConfigureBuildkitd sbEnvNotReady 4 false none).result =
      .error (.workersNotReady (1 - 1)
        (requiredWorkersFor (nativeMultiPlatformBuildsEnabled none))) := by
  exact workersNotReady_spec sbEnvNotReady 4 false none 1 rfl
    (by
      intro p hp n hn
      rw [show sbEnvNotReady.workerPolls = [.ok 1] from rfl, List.mem_singleton] at hp
      subst hp
      injection hn with h
      rw [← h]
      decide)
    rfl (by decide)

/-! #### `buildkit_validation.ts` -/

/-- C9: when any corruption/integrity indicator is present (a still-running
daemon process, lock-file remnants, or a zero-byte database file),
`validateBuildkitState` reports an unhealthy state and the spec-modelled
commit of the volume lease is blocked (no `commitVolume` action, successful
no-op instead). -/
theorem corruption_blocks_commit (venv : ValidationEnv) (exposeId : String)
    (h : corruptionIndicatorPresent venv) :
    validateBuildkitState venv = false ∧
    commitStickyDiskImpl venv exposeId = (.ok (), []) := by
  have hfalse : validateBuildkitState venv = false := by
    rcases h with ⟨out, hout⟩ | ⟨out, hout, hne⟩ | ⟨db, hdb, out, hout, hzero⟩
    · simp [validateBuildkitState, hout]
    · cases hp : venv.pgrepResult with
      | ok o => simp [validateBuildkitState, hp]
      | error code =>
        by_cases hc : code = 1
        · subst hc
          simp [validateBuildkitState, hp, hout, hne]
        · simp [validateBuildkitState, hp, hc]
    · have hz : zeroByteDbDetected venv = true := by
        rw [zeroByteDbDetected, List.any_eq_true]
        refine ⟨db, hdb, ?_⟩
        rw [hout]
        simp [hzero]
      cases hp : venv.pgrepResult with
      | ok o => simp [validateBuildkitState, hp]
      | error code =>
        by_cases hc : code = 1
        · subst hc
          simp only [validateBuildkitState, hp, hz]
          split <;> simp
        · simp [validateBuildkitState, hp, hc]
  exact ⟨hfalse, by simp [commitStickyDiskImpl, hfalse, pure_defP]⟩

/-- Witness for `corruption_blocks_commit`: a still-running daemon blocks the
commit. -/
theorem corruption_blocks_commit_witness :
    validateBuildkitState venvDaemonAlive = false ∧
    commitStickyDiskImpl venvDaemonAlive ("expose-1") = (.ok (), []) :=
  corruption_blocks_commit venvDaemonAlive ("expose-1") (Or.inl ⟨"1234", rfl⟩)

/-! #### `context.ts` -/

/-- C10: `sanitizeInputs` never yields the `github-token` key nor any
`false` boolean, empty array, or empty string value; and its output does not
depend on the `github-token` input (replacing it by any value leaves the
sanitized result unchanged). -/
theorem sanitizeInputs_spec (i : Inputs) (t : String) :
    (∀ kv ∈ sanitizeInputs i,
      kv.1 ≠ "github-token" ∧ kv.2 ≠ .bool false ∧ kv.2 ≠ .strs [] ∧ kv.2 ≠ .str ("")) ∧
    sanitizeInputs { i with githubToken := t } = sanitizeInputs i := by
  constructor
  · intro kv hkv
    rw [sanitizeInputs, List.mem_filter] at hkv
    obtain ⟨-, hp⟩ := hkv
    rcases kv with ⟨k, v⟩
    simp only [Bool.and_eq_true, Bool.not_eq_true'] at hp
    obtain ⟨⟨⟨h1, h2⟩, h3⟩, h4⟩ := hp
    refine ⟨by simpa using h1, ?_, ?_, ?_⟩
    · rcases v with s | l | b <;> simp_all
    · rcases v with s | l | b <;> simp_all
    · rcases v with s | l | b <;> simp_all [jsTruthy]
  · simp [sanitizeInputs, inputsPairs, List.filter_cons, jsTruthy]

/-- Witness for `sanitizeInputs_spec`: the kept `tags` entry of the baseline
inputs satisfies the guarantees. -/
theorem sanitizeInputs_spec_witness :
    ("tags", JSVal.strs ["user/app:latest"]).1 ≠ "github-token" ∧
    ("tags", JSVal.strs ["user/app:latest"]).2 ≠ .bool false ∧
    ("tags", JSVal.strs ["user/app:latest"]).2 ≠ .strs [] ∧
    ("tags", JSVal.strs ["user/app:latest"]).2 ≠ .str ("") :=
  (sanitizeInputs_spec inputsBase ("other")).1 ("tags", JSVal.strs ["user/app:latest"])
    (by decide)

/-! #### `shutdownBuildkitd` and its callers -/

/-- C6 counterexample to the literal claim: calling `shutdownBuildkitd` with
no daemon running makes `pkill` match nothing and exit 1, so the call throws
instead of succeeding — and the termination signal is sent without any prior
probe for process absence. -/
theorem shutdownBuildkitd_no_daemon_counterexample :
    (shutdownBuildkitd ⟨.error 1, []⟩).result = .error (.execFailed 1) ∧
    (shutdownBuildkitd ⟨.error 1, []⟩).trace = [.pkillDaemon] :=
  ⟨rfl, rfl⟩

/-- C6 (amended): the already-stopped safety lives in the callers, not in
`shutdownBuildkitd` itself: both the main-cleanup and the post daemon steps
probe with `pgrep` first and, when the probe reports no process (non-zero
exit), skip the prune and the shutdown entirely and succeed without emitting
any action. -/
theorem daemon_steps_probe_before_shutdown (menv : MainEnv) (penv : PostEnv) (c1 c2 : Nat)
    (h1 : menv.pgrepMain = .error c1) (h2 : penv.pgrepPost = .error c2) :
    daemonCleanupStep menv = (.ok (), []) ∧ postDaemonStep penv = (.ok (), []) := by
  constructor
  · simp [daemonCleanupStep, h1, tryCatchE, throwE, pure_defP]
  · simp [postDaemonStep, h2, tryCatchE, throwE, pure_defP]

/-- Witness for `daemon_steps_probe_before_shutdown` at concrete cleanup
environments with no daemon running. -/
theorem daemon_steps_probe_before_shutdown_witness :
    daemonCleanupStep mainEnvEmptyLease = (.ok (), []) ∧
    postDaemonStep postEnvClean = (.ok (), []) :=
  daemon_steps_probe_before_shutdown mainEnvEmptyLease postEnvClean 1 1 rfl rfl

/-! #### Trace classification lemmas -/

lemma benign_split (a : Action) (h : a.benign = true) :
    a.isLocalFallbackCfg = false ∧ a.isLeaseCall = false := by
  rw [Action.benign, Bool.and_eq_true, Bool.not_eq_true', Bool.not_eq_true'] at h
  exact h

lemma forall_trace_bind {p : Proc α} {f : α → Proc β} {P : Action → Prop}
    (hp : ∀ a ∈ p.trace, P a) (hf : ∀ x, ∀ a ∈ (f x).trace, P a) :
    ∀ a ∈ (p >>= f).trace, P a := by
  intro a ha
  rcases mem_bindP ha with h | ⟨x, h⟩
  exacts [hp a h, hf x a h]

lemma forall_trace_tryCatchE {p : Proc α} {h : Err → Proc α} {P : Action → Prop}
    (hp : ∀ a ∈ p.trace, P a) (hh : ∀ e, ∀ a ∈ (h e).trace, P a) :
    ∀ a ∈ (tryCatchE p h).trace, P a := by
  intro a ha
  rcases mem_tryCatchE ha with h1 | ⟨e, h1⟩
  exacts [hp a h1, hh e a h1]

lemma forall_trace_finallyE {p : Proc α} {fin : Proc Unit} {P : Action → Prop}
    (hp : ∀ a ∈ p.trace, P a) (hf : ∀ a ∈ fin.trace, P a) :
    ∀ a ∈ (finallyE p fin).trace, P a := by
  intro a ha
  rcases mem_finallyE ha with h1 | h1
  exacts [hp a h1, hf a h1]

lemma forall_trace_emit {b : Action} {P : Action → Prop} (hb : P b) :
    ∀ a ∈ (emit b).trace, P a := by
  intro a ha
  rw [mem_emit ha]
  exact hb

lemma forall_trace_pure {x : α} {P : Action → Prop} :
    ∀ a ∈ (pure x : Proc α).trace, P a := by
  intro a ha
  simp [pure_defP, Proc.trace] at ha

lemma forall_trace_throwE {e : Err} {P : Action → Prop} :
    ∀ a ∈ (throwE e : Proc α).trace, P a := by
  intro a ha
  simp [throwE, Proc.trace] at ha

lemma forall_trace_liftE {r : Except Err α} {P : Action → Prop} :
    ∀ a ∈ (liftE r : Proc α).trace, P a := by
  intro a ha
  simp [liftE, Proc.trace] at ha

lemma benign_getStickyDisk (se : StickyEnv) :
    ∀ a ∈ (getStickyDisk se).trace, a.benign = true := by
  intro a ha
  rw [getStickyDisk] at ha
  cases h : se.getStickyDiskResult <;> rw [h] at ha <;>
    simp [throwE, pure_defP, Proc.trace] at ha

lemma benign_maybeFormat (fe : FormatEnv) (dev : String) :
    ∀ a ∈ (maybeFormatBlockDevice fe dev).trace, a.benign = true := by
  intro a ha
  rcases trace_maybeFormat fe dev with h | h <;> rw [h] at ha <;> simp at ha <;>
    rcases ha with rfl | rfl <;> rfl

lemma trace_reportBuildIfNeeded (se : StickyEnv) (so : Bool) :
    (reportBuildIfNeeded se so).trace = [] := by
  cases so <;> cases h : se.reportBuildResult <;>
    simp [reportBuildIfNeeded, h, pure_defP, throwE, Proc.trace]

lemma benign_setupSticky (se : StickyEnv) (d : String) (so : Bool) :
    ∀ a ∈ (setupStickyDisk se d so).trace, a.benign = true := by
  rw [setupStickyDisk]
  refine forall_trace_bind (benign_getStickyDisk se) ?_
  intro ids
  dsimp only
  refine forall_trace_bind (benign_maybeFormat se.formatEnv _) ?_
  intro dev
  refine forall_trace_bind ?_ ?_
  · rw [trace_reportBuildIfNeeded]
    intro a ha
    simp at ha
  · intro buildId
    refine forall_trace_bind (forall_trace_emit rfl) ?_
    intro u
    cases se.mountResult
    · exact forall_trace_throwE
    · exact forall_trace_pure

lemma benign_joinTailnet (env : SetupBuilderEnv) :
    ∀ a ∈ (joinTailnet env).trace, a.benign = true := by
  rw [joinTailnet]
  cases env.tailscaleToken with
  | none => exact forall_trace_pure
  | some tok =>
    dsimp only
    by_cases h : (tok == "" || tok == "unset") = true
    · rw [if_pos h]
      exact forall_trace_pure
    · rw [if_neg h]
      refine forall_trace_bind (forall_trace_emit rfl) ?_
      intro u
      cases env.joinResult
      · exact forall_trace_throwE
      · exact forall_trace_pure

lemma benign_startBuildkitd (env : SetupBuilderEnv) (parallelism : Nat) (addr : String)
    (so : Bool) : ∀ a ∈ (startBuildkitd env parallelism addr so).trace, a.benign = true := by
  rw [startBuildkitd]
  refine forall_trace_bind (forall_trace_emit rfl) ?_
  intro u
  cases env.startBuildkitdResult
  · exact forall_trace_throwE
  · exact forall_trace_pure

lemma benign_resolveBuildkitdAddr (env : SetupBuilderEnv) (native : Bool) :
    ∀ a ∈ (resolveBuildkitdAddr env native).trace, a.benign = true := by
  rw [resolveBuildkitdAddr]
  cases native with
  | true =>
    rw [if_pos rfl]
    refine forall_trace_bind (benign_joinTailnet env) ?_
    intro u
    cases env.tailscaleIP
    · exact forall_trace_throwE
    · exact forall_trace_pure
  | false =>
    rw [if_neg (by simp)]
    exact forall_trace_pure

lemma benign_startAndConfigure (env : SetupBuilderEnv) (parallelism : Nat) (so : Bool)
    (platforms : Option (List String)) :
    ∀ a ∈ (startAndConfigureBuildkitd env parallelism so platforms).trace, a.benign = true := by
  rw [startAndConfigureBuildkitd]
  refine forall_trace_bind (benign_resolveBuildkitdAddr env _) ?_
  intro buildkitdAddr
  refine forall_trace_bind (benign_startBuildkitd env parallelism _ so) ?_
  intro addr
  refine forall_trace_bind forall_trace_liftE ?_
  intro u
  exact forall_trace_pure

lemma benign_sbbTry (env : MainEnv) (inputs : Inputs) :
    ∀ a ∈ (startBlacksmithBuilderTry env inputs).trace, a.benign = true := by
  rw [startBlacksmithBuilderTry]
  by_cases h : (!inputs.setupOnly &&
      jsFalsyOpt (if inputs.setupOnly then some ("") else env.dockerfilePath)) = true
  · rw [if_pos h]
    exact forall_trace_throwE
  · rw [if_neg h]
    refine forall_trace_bind (benign_setupSticky env.sticky _ _) ?_
    intro sticky
    refine forall_trace_bind (benign_startAndConfigure env.builderEnv _ _ _) ?_
    intro addr
    exact forall_trace_pure

lemma benign_sbb (env : MainEnv) (inputs : Inputs) :
    ∀ a ∈ (startBlacksmithBuilder env inputs).trace, a.benign = true := by
  rw [startBlacksmithBuilder]
  refine forall_trace_finallyE (forall_trace_tryCatchE (benign_sbbTry env inputs) ?_) ?_
  · intro e
    refine forall_trace_bind (forall_trace_emit rfl) ?_
    intro u
    by_cases h : inputs.nofallback = true
    · rw [if_pos h]
      exact forall_trace_throwE
    · rw [if_neg h]
      exact forall_trace_pure
  · intro a ha
    rw [show leaveTailnet.trace = [.leaveTailnet] from rfl] at ha
    rw [List.mem_singleton] at ha
    rw [ha]
    rfl

lemma benign_shutdownPollLoop (l : List (Except Nat String)) :
    ∀ a ∈ (shutdownPollLoop l).trace, a.benign = true := by
  induction l with
  | nil => exact forall_trace_throwE
  | cons p rest ih =>
    cases p with
    | ok s => exact ih
    | error c =>
      rcases c with _ | _ | c
      · exact forall_trace_throwE
      · exact forall_trace_pure
      · exact forall_trace_throwE

lemma benign_shutdownBuildkitd (env : ShutdownEnv) :
    ∀ a ∈ (shutdownBuildkitd env).trace, a.benign = true := by
  rw [shutdownBuildkitd]
  refine forall_trace_bind (forall_trace_emit rfl) ?_
  intro u
  cases env.pkillResult with
  | ok v => exact benign_shutdownPollLoop env.pgrepPolls
  | error c => exact forall_trace_throwE

lemma benign_daemonCleanupStep (env : MainEnv) :
    ∀ a ∈ (daemonCleanupStep env).trace, a.benign = true := by
  rw [daemonCleanupStep]
  refine forall_trace_tryCatchE ?_ (fun e => forall_trace_pure)
  cases env.pgrepMain with
  | ok out =>
    dsimp only
    by_cases h : (jsTrim out != "") = true
    · rw [if_pos h]
      refine forall_trace_bind (forall_trace_emit rfl) ?_
      intro u
      exact benign_shutdownBuildkitd env.shutdownEnv
    · rw [if_neg h]
      exact forall_trace_pure
  | error c => exact forall_trace_throwE

lemma benign_postDaemonStep (env : PostEnv) :
    ∀ a ∈ (postDaemonStep env).trace, a.benign = true := by
  rw [postDaemonStep]
  refine forall_trace_tryCatchE ?_ (fun e => forall_trace_pure)
  cases env.pgrepPost with
  | ok out =>
    dsimp only
    by_cases h : (jsTrim out != "") = true
    · rw [if_pos h]
      refine forall_trace_bind (forall_trace_emit rfl) ?_
      intro u
      exact benign_shutdownBuildkitd env.shutdownEnv
    · rw [if_neg h]
      exact forall_trace_pure
  | error c => exact forall_trace_throwE

lemma benign_unmountStep (env : UnmountEnv) :
    ∀ a ∈ (unmountStep env).trace, a.benign = true := by
  rw [unmountStep]
  refine forall_trace_tryCatchE ?_ (fun e => forall_trace_pure)
  cases env.mountGrep with
  | ok out =>
    dsimp only
    by_cases h : (out != "") = true
    · rw [if_pos h]
      refine forall_trace_bind (forall_trace_emit rfl) ?_
      intro u
      cases env.umountResult
      · exact forall_trace_throwE
      · exact forall_trace_pure
    · rw [if_neg h]
      exact forall_trace_pure
  | error c => exact forall_trace_throwE

lemma noCfg_reportStep (info : BuilderInfo) (be : Option Err) :
    ∀ a ∈ (reportStep info be).trace, a.isLocalFallbackCfg = false := by
  rw [reportStep]
  by_cases h : info.addr.isSome = true
  · rw [if_pos h]
    by_cases h2 : be.isNone = true
    · rw [if_pos h2]
      exact forall_trace_emit rfl
    · rw [if_neg h2]
      exact forall_trace_emit rfl
  · rw [if_neg h]
    exact forall_trace_pure

lemma trace_reportStep_noaddr (info : BuilderInfo) (be : Option Err)
    (haddr : info.addr = none) : (reportStep info be).trace = [] := by
  rw [reportStep, haddr]
  rfl

lemma trace_exceptStep (r : Except Nat Unit) : (exceptStep r).trace = [] := by
  cases r <;> rfl

lemma trace_exportHistoryStep (env : MainEnv) (be : Option Err) :
    (exportHistoryStep env be).trace = [] := by
  rw [exportHistoryStep]
  by_cases h : be.isNone = true
  · rw [if_pos h, trace_exceptStep]
  · rw [if_neg h]
    rfl

lemma noCfg_mainCleanup (env : MainEnv) (info : BuilderInfo) (be : Option Err) :
    ∀ a ∈ (mainCleanup env info be).trace, a.isLocalFallbackCfg = false := by
  rw [mainCleanup]
  refine forall_trace_tryCatchE ?_ (fun e => forall_trace_pure)
  refine forall_trace_bind ?_ ?_
  · rw [trace_exportHistoryStep]
    intro a ha
    simp at ha
  · intro u1
    refine forall_trace_bind ?_ ?_
    · intro a ha
      exact (benign_split a (benign_daemonCleanupStep env a ha)).1
    · intro u2
      refine forall_trace_bind ?_ ?_
      · intro a ha
        rw [show leaveTailnet.trace = [.leaveTailnet] from rfl, List.mem_singleton] at ha
        rw [ha]
        rfl
      · intro u3
        refine forall_trace_bind ?_ ?_
        · intro a ha
          exact (benign_split a (benign_unmountStep env.unmountEnv a ha)).1
        · intro u4
          exact noCfg_reportStep info be

lemma noLease_mainCleanup_noaddr (env : MainEnv) (info : BuilderInfo) (be : Option Err)
    (haddr : info.addr = none) :
    ∀ a ∈ (mainCleanup env info be).trace, a.isLeaseCall = false := by
  rw [mainCleanup]
  refine forall_trace_tryCatchE ?_ (fun e => forall_trace_pure)
  refine forall_trace_bind ?_ ?_
  · rw [trace_exportHistoryStep]
    intro a ha
    simp at ha
  · intro u1
    refine forall_trace_bind ?_ ?_
    · intro a ha
      exact (benign_split a (benign_daemonCleanupStep env a ha)).2
    · intro u2
      refine forall_trace_bind ?_ ?_
      · intro a ha
        rw [show leaveTailnet.trace = [.leaveTailnet] from rfl, List.mem_singleton] at ha
        rw [ha]
        rfl
      · intro u3
        refine forall_trace_bind ?_ ?_
        · intro a ha
          exact (benign_split a (benign_unmountStep env.unmountEnv a ha)).2
        · intro u4
          rw [trace_reportStep_noaddr info be haddr]
          intro a ha
          simp at ha

lemma noLease_remoteBuilderPhase (env : MainEnv) (inputs : Inputs) (addr : String) :
    ∀ a ∈ (remoteBuilderPhase env inputs addr).trace, a.isLeaseCall = false := by
  rw [remoteBuilderPhase]
  refine forall_trace_bind (forall_trace_emit rfl) ?_
  intro u
  cases env.createBuilderResult with
  | error c => exact forall_trace_throwE
  | ok v =>
    by_cases h : inputs.setupOnly = true
    · rw [if_pos h]
      refine forall_trace_bind (forall_trace_emit rfl) ?_
      intro u2
      cases env.useBuilderResult
      · exact forall_trace_throwE
      · exact forall_trace_pure
    · rw [if_neg h]
      exact forall_trace_pure

lemma noLease_fallbackBuilderPhase (env : MainEnv) :
    ∀ a ∈ (fallbackBuilderPhase env).trace, a.isLeaseCall = false := by
  rw [fallbackBuilderPhase]
  refine forall_trace_bind (forall_trace_emit rfl) ?_
  intro u
  cases env.inspectResult with
  | ok o =>
    cases o
    · refine forall_trace_bind (forall_trace_emit rfl) ?_
      intro u2
      exact forall_trace_pure
    · exact forall_trace_pure
  | error c => exact forall_trace_pure

lemma builderSetupPhase_eq (env : MainEnv) (inputs : Inputs) (info : BuilderInfo) :
    builderSetupPhase env inputs info =
      match info.addr with
      | some addr => remoteBuilderPhase env inputs addr
      | none => fallbackBuilderPhase env := rfl

lemma noLease_builderSetupPhase (env : MainEnv) (inputs : Inputs) (info : BuilderInfo) :
    ∀ a ∈ (builderSetupPhase env inputs info).trace, a.isLeaseCall = false := by
  rw [builderSetupPhase_eq]
  cases info.addr with
  | some addr => exact noLease_remoteBuilderPhase env inputs addr
  | none => exact noLease_fallbackBuilderPhase env
/-! #### `startBlacksmithBuilder` result lemmas -/

lemma sbb_result_err (env : MainEnv) (inputs : Inputs) (e : Err)
    (hnf : inputs.nofallback = true)
    (hfail : (startBlacksmithBuilderTry env inputs).result = .error e) :
    startBlacksmithBuilder env inputs =
      (.error e,
        (startBlacksmithBuilderTry env inputs).trace ++ [.reportSetupFailure, .leaveTailnet]) := by
  rw [startBlacksmithBuilder]
  rcases htry : startBlacksmithBuilderTry env inputs with ⟨r, t⟩
  rw [htry] at hfail
  rw [result_mk] at hfail
  subst hfail
  simp [tryCatchE, finallyE, bind_defP, Proc.bindP, emit, throwE, hnf, leaveTailnet, Proc.trace]

lemma sbb_result_fallback (env : MainEnv) (inputs : Inputs) (e : Err)
    (hnf : inputs.nofallback = false)
    (hfail : (startBlacksmithBuilderTry env inputs).result = .error e) :
    startBlacksmithBuilder env inputs =
      (.ok ⟨none, none, ""⟩,
        (startBlacksmithBuilderTry env inputs).trace ++ [.reportSetupFailure, .leaveTailnet]) := by
  rw [startBlacksmithBuilder]
  rcases htry : startBlacksmithBuilderTry env inputs with ⟨r, t⟩
  rw [htry] at hfail
  rw [result_mk] at hfail
  subst hfail
  simp [tryCatchE, finallyE, bind_defP, Proc.bindP, emit, throwE, hnf, pure_defP, leaveTailnet,
    Proc.trace]

/-! #### C1 -/

/-- C1: with `nofallback` set, any setup failure inside
`startBlacksmithBuilder` is rethrown unchanged (after the failure report),
the whole run fails with that original error, and no action of the run ever
locates (inspects for) or creates a local fallback builder. -/
theorem nofallback_rethrows_no_local_builder (env : MainEnv) (inputs : Inputs) (e : Err)
    (hnf : inputs.nofallback = true)
    (hfail : (startBlacksmithBuilderTry env inputs).result = .error e) :
    (startBlacksmithBuilder env inputs).result = .error e ∧
    Action.reportSetupFailure ∈ (startBlacksmithBuilder env inputs).trace ∧
    (mainRun env inputs).final = .error e ∧
    ∀ a ∈ (mainRun env inputs).trace, a.isLocalFallbackCfg = false := by
  have hsbb := sbb_result_err env inputs e hnf hfail
  refine ⟨by rw [hsbb]; rfl, by rw [hsbb]; simp [Proc.trace], ?_, ?_⟩
  · simp [mainRun, hsbb]
  · intro a ha
    simp only [mainRun, hsbb] at ha
    have hbenign := benign_sbbTry env inputs
    rcases List.mem_append.mp ha with h | h
    · rcases List.mem_append.mp h with h1 | h1
      · exact (benign_split a (hbenign a h1)).1
      · simp only [List.mem_cons, List.mem_singleton, List.not_mem_nil, or_false] at h1
        rcases h1 with rfl | rfl <;> rfl
    · exact noCfg_mainCleanup env ⟨none, none, ""⟩ (some e) a h

/-- Witness for `nofallback_rethrows_no_local_builder`: a failing sticky-disk
acquisition with `nofallback` set rethrows the acquisition error. -/
theorem nofallback_rethrows_no_local_builder_witness :
    (startBlacksmithBuilder mainEnvSetupFails inputsNoFallback).result =
      .error (.execFailed 7) ∧
    Action.reportSetupFailure ∈ (startBlacksmithBuilder mainEnvSetupFails inputsNoFallback).trace ∧
    (mainRun mainEnvSetupFails inputsNoFallback).final = .error (.execFailed 7) ∧
    ∀ a ∈ (mainRun mainEnvSetupFails inputsNoFallback).trace, a.isLocalFallbackCfg = false :=
  nofallback_rethrows_no_local_builder mainEnvSetupFails inputsNoFallback (.execFailed 7) rfl rfl

/-! #### C2 -/

lemma fallbackPhase_cases (env : MainEnv) :
    (fallbackBuilderPhase env).result = .ok () ∧
    (env.inspectResult = .ok none →
      (fallbackBuilderPhase env).trace =
        [.inspectBuilder, .createLocalBuilder localFallbackCmd]) ∧
    (∀ b, env.inspectResult = .ok (some b) →
      (fallbackBuilderPhase env).trace = [.inspectBuilder]) := by
  cases h : env.inspectResult with
  | ok o =>
    cases o with
    | none =>
      refine ⟨?_, fun _ => ?_, fun b hb => ?_⟩
      · simp [fallbackBuilderPhase, h, bind_defP, Proc.bindP, emit, pure_defP, Proc.result]
      · simp [fallbackBuilderPhase, h, bind_defP, Proc.bindP, emit, pure_defP, Proc.trace]
      · simp at hb
    | some b0 =>
      refine ⟨?_, fun hb => ?_, fun b hb => ?_⟩
      · simp [fallbackBuilderPhase, h, bind_defP, Proc.bindP, emit, pure_defP, Proc.result]
      · simp at hb
      · simp [fallbackBuilderPhase, h, bind_defP, Proc.bindP, emit, pure_defP, Proc.trace]
  | error c =>
    refine ⟨?_, fun hb => ?_, fun b hb => ?_⟩
    · simp [fallbackBuilderPhase, h, bind_defP, Proc.bindP, emit, pure_defP, Proc.result]
    · simp at hb
    · simp at hb

lemma mem_inspect_fallbackPhase (env : MainEnv) :
    Action.inspectBuilder ∈ (fallbackBuilderPhase env).trace := by
  rw [fallbackBuilderPhase]
  cases h : env.inspectResult with
  | ok o =>
    cases o <;>
      simp [h, bind_defP, Proc.bindP, emit, pure_defP, Proc.trace]
  | error c =>
    simp [h, bind_defP, Proc.bindP, emit, pure_defP, Proc.trace]

lemma countLocal_of_noCfg {t : List Action} (h : ∀ a ∈ t, a.isLocalFallbackCfg = false) :
    t.countP (fun a => a.isCreateLocal) = 0 := by
  rw [List.countP_eq_zero]
  intro a ha
  have hb := h a ha
  cases a <;> simp_all [Action.isCreateLocal, Action.isLocalFallbackCfg]

lemma countLocal_of_benign {t : List Action} (h : ∀ a ∈ t, a.benign = true) :
    t.countP (fun a => a.isCreateLocal) = 0 :=
  countLocal_of_noCfg (fun a ha => (benign_split a (h a ha)).1)

/-- The workhorse for C2: under a setup failure with `nofallback` unset, the
main run keeps the null builder info and its trace decomposes into the
builder-start trace, the fallback-phase trace, and a remainder that contains
no fallback-configuration action yet runs the build when not `setupOnly`. -/
lemma mainRun_fallback_decomp (env : MainEnv) (inputs : Inputs) (e : Err)
    (hnf : inputs.nofallback = false)
    (hfail : (startBlacksmithBuilderTry env inputs).result = .error e) :
    ∃ t2,
      (mainRun env inputs).trace =
        ((startBlacksmithBuilderTry env inputs).trace ++
          [.reportSetupFailure, .leaveTailnet]) ++ ((fallbackBuilderPhase env).trace ++ t2) ∧
      (∀ a ∈ t2, a.isLocalFallbackCfg = false) ∧
      (inputs.setupOnly = false → Action.runBuild ∈ t2) ∧
      (mainRun env inputs).builderInfo = ⟨none, none, ""⟩ := by
  have hsbb := sbb_result_fallback env inputs e hnf hfail
  have hres : (builderSetupPhase env inputs ⟨none, none, ""⟩).1 = .ok () :=
    (fallbackPhase_cases env).1
  have hphase : (builderSetupPhase env inputs ⟨none, none, ""⟩).2 =
      (fallbackBuilderPhase env).trace := rfl
  rcases hph : builderSetupPhase env inputs ⟨none, none, ""⟩ with ⟨rp, tp⟩
  rw [hph] at hres hphase
  have hrp : rp = .ok () := hres
  have htp : tp = (fallbackBuilderPhase env).trace := hphase
  subst hrp
  subst htp
  cases hso : inputs.setupOnly with
  | true =>
    refine ⟨[], ?_, ?_, ?_, ?_⟩
    · simp only [mainRun, hsbb, hph, hso]
      simp [Proc.trace, List.append_assoc]
    · intro a ha
      simp at ha
    · intro hcontra
      simp at hcontra
    · simp [mainRun, hsbb, hph, hso]
  | false =>
    cases hbr : env.buildResult with
    | ok v =>
      refine ⟨.runBuild :: (mainCleanup env ⟨none, none, ""⟩ none).trace, ?_, ?_, ?_, ?_⟩
      · simp only [mainRun, hsbb, hph, hso, hbr]
        simp [Proc.trace, List.append_assoc]
      · intro a ha
        rcases List.mem_cons.mp ha with rfl | ha
        · rfl
        · exact noCfg_mainCleanup env ⟨none, none, ""⟩ none a ha
      · intro _
        exact List.mem_cons_self _ _
      · simp [mainRun, hsbb, hph, hso, hbr]
    | error c =>
      refine ⟨.runBuild :: (mainCleanup env ⟨none, none, ""⟩ (some (.execFailed c))).trace,
        ?_, ?_, ?_, ?_⟩
      · simp only [mainRun, hsbb, hph, hso, hbr]
        simp [Proc.trace, List.append_assoc]
      · intro a ha
        rcases List.mem_cons.mp ha with rfl | ha
        · rfl
        · exact noCfg_mainCleanup env ⟨none, none, ""⟩ (some (.execFailed c)) a ha
      · intro _
        exact List.mem_cons_self _ _
      · simp [mainRun, hsbb, hph, hso, hbr]

/-- C2: under a setup failure with `nofallback` unset,
`startBlacksmithBuilder` returns the null builder
(null address, null build id, empty expose id); the main routine then inspects
for an already-configured builder, uses it as-is when one exists (no builder
creation), and otherwise creates exactly one local builder with the
docker-container driver command; the build itself still runs when not in
`setupOnly` mode. -/
theorem fallback_creates_one_local_builder (env : MainEnv) (inputs : Inputs) (e : Err)
    (hnf : inputs.nofallback = false)
    (hfail : (startBlacksmithBuilderTry env inputs).result = .error e) :
    (startBlacksmithBuilder env inputs).result = .ok ⟨none, none, ""⟩ ∧
    (mainRun env inputs).builderInfo = ⟨none, none, ""⟩ ∧
    Action.inspectBuilder ∈ (mainRun env inputs).trace ∧
    (∀ b, env.inspectResult = .ok (some b) →
      (mainRun env inputs).trace.countP (fun a => a.isCreateLocal) = 0) ∧
    (env.inspectResult = .ok none →
      (mainRun env inputs).trace.countP (fun a => a.isCreateLocal) = 1 ∧
      Action.createLocalBuilder localFallbackCmd ∈ (mainRun env inputs).trace) ∧
    (inputs.setupOnly = false → Action.runBuild ∈ (mainRun env inputs).trace) := by
  obtain ⟨t2, htr, hnoCfg, hrun, hbi⟩ := mainRun_fallback_decomp env inputs e hnf hfail
  have hsbb := sbb_result_fallback env inputs e hnf hfail
  have hcount0 :
      (((startBlacksmithBuilderTry env inputs).trace ++
        [Action.reportSetupFailure, Action.leaveTailnet]).countP
          (fun a => a.isCreateLocal)) = 0 := by
    rw [List.countP_append]
    rw [countLocal_of_benign (benign_sbbTry env inputs)]
    decide
  refine ⟨by rw [hsbb]; rfl, hbi, ?_, ?_, ?_, ?_⟩
  · rw [htr]
    refine List.mem_append.mpr (Or.inr ?_)
    exact List.mem_append.mpr (Or.inl (mem_inspect_fallbackPhase env))
  · intro b hb
    rw [htr, List.countP_append, hcount0, List.countP_append,
      countLocal_of_noCfg hnoCfg]
    rw [(fallbackPhase_cases env).2.2 b hb]
    decide
  · intro hb
    constructor
    · rw [htr, List.countP_append, hcount0, List.countP_append,
        countLocal_of_noCfg hnoCfg]
      rw [(fallbackPhase_cases env).2.1 hb]
      decide
    · rw [htr, (fallbackPhase_cases env).2.1 hb]
      simp
  · intro hso
    rw [htr]
    exact List.mem_append.mpr (Or.inr (List.mem_append.mpr (Or.inr (hrun hso))))

/-- Witness for `fallback_creates_one_local_builder`: a failing sticky-disk
acquisition with `nofallback` unset and no configured builder. -/
theorem fallback_creates_one_local_builder_witness :
    (startBlacksmithBuilder mainEnvSetupFailsNoBuilder inputsBase).result =
      .ok ⟨none, none, ""⟩ ∧
    (mainRun mainEnvSetupFailsNoBuilder inputsBase).builderInfo = ⟨none, none, ""⟩ ∧
    Action.inspectBuilder ∈ (mainRun mainEnvSetupFailsNoBuilder inputsBase).trace ∧
    (∀ b, mainEnvSetupFailsNoBuilder.inspectResult = .ok (some b) →
      (mainRun mainEnvSetupFailsNoBuilder inputsBase).trace.countP
        (fun a => a.isCreateLocal) = 0) ∧
    (mainEnvSetupFailsNoBuilder.inspectResult = .ok none →
      (mainRun mainEnvSetupFailsNoBuilder inputsBase).trace.countP
        (fun a => a.isCreateLocal) = 1 ∧
      Action.createLocalBuilder localFallbackCmd ∈
        (mainRun mainEnvSetupFailsNoBuilder inputsBase).trace) ∧
    (inputsBase.setupOnly = false →
      Action.runBuild ∈ (mainRun mainEnvSetupFailsNoBuilder inputsBase).trace) :=
  fallback_creates_one_local_builder mainEnvSetupFailsNoBuilder inputsBase (.execFailed 7)
    rfl rfl

/-! #### C3 -/

/-- C3 counterexample to the literal claim: a run whose setup succeeds but
whose control plane returned no `exposeId` has a lease with the empty
resource handle, yet the main-phase cleanup still issues
`reportBuildCompleted` — the guard at `src/main.ts:463` tests
`builderInfo.addr`, not `exposeId`. -/
theorem emptyLease_still_reports_counterexample :
    (mainRun mainEnvEmptyLease inputsBase).builderInfo.exposeId = "" ∧
    Action.reportBuildCompleted (some ("bid")) ("") ∈ (mainRun mainEnvEmptyLease inputsBase).trace := by
  constructor
  · rfl
  · decide

/-- C3 (amended): the main-phase build-outcome reports are guarded by the
builder address: every run that ends with a null builder address (which
includes every fallback run, whose `exposeId` is empty) issues no
release/commit/report call, and the post phase never issues the sticky-disk
commit when the recorded `exposeId` is empty.  A run whose setup succeeded
with a non-null address but an empty `exposeId` is not covered (see the
counterexample). -/
theorem lease_calls_guarded (env : MainEnv) (inputs : Inputs) (penv : PostEnv)
    (so : Bool) (eid : String) :
    ((mainRun env inputs).builderInfo.addr = none →
      ∀ a ∈ (mainRun env inputs).trace, a.isLeaseCall = false) ∧
    (eid = "" → ∀ a ∈ (postRun penv so eid).trace, a.isLeaseCall = false) := by
  constructor
  · intro haddr
    rcases hsbb : startBlacksmithBuilder env inputs with ⟨r, t⟩
    have hbenign : ∀ a ∈ t, a.benign = true := by
      have hb := benign_sbb env inputs
      rw [hsbb] at hb
      exact hb
    cases r with
    | error e =>
      intro a ha
      simp only [mainRun, hsbb] at ha
      rcases List.mem_append.mp ha with h | h
      · exact (benign_split a (hbenign a h)).2
      · exact noLease_mainCleanup_noaddr env ⟨none, none, ""⟩ (some e) rfl a h
    | ok info =>
      rcases hph : builderSetupPhase env inputs info with ⟨rp, tp⟩
      have hpl : ∀ a ∈ tp, a.isLeaseCall = false := by
        have hp := noLease_builderSetupPhase env inputs info
        rw [hph] at hp
        exact hp
      cases rp with
      | error e2 =>
        have hbi : (mainRun env inputs).builderInfo = info := by
          simp [mainRun, hsbb, hph]
        rw [hbi] at haddr
        intro a ha
        simp only [mainRun, hsbb, hph] at ha
        rcases List.mem_append.mp ha with h | h
        · rcases List.mem_append.mp h with h1 | h1
          · exact (benign_split a (hbenign a h1)).2
          · exact hpl a h1
        · exact noLease_mainCleanup_noaddr env info (some e2) haddr a h
      | ok u =>
        have hbi : (mainRun env inputs).builderInfo = info := by
          simp only [mainRun, hsbb, hph]
          cases inputs.setupOnly <;> cases hbr : env.buildResult <;> simp [hbr]
        rw [hbi] at haddr
        intro a ha
        simp only [mainRun, hsbb, hph] at ha
        cases hso : inputs.setupOnly with
        | true =>
          rw [hso] at ha
          simp only [if_true] at ha
          rcases List.mem_append.mp ha with h | h
          · exact (benign_split a (hbenign a h)).2
          · exact hpl a h
        | false =>
          rw [hso] at ha
          simp only [Bool.false_eq_true, if_false] at ha
          cases hbr : env.buildResult with
          | ok v =>
            rw [hbr] at ha
            simp only [List.append_assoc, List.singleton_append, List.mem_append,
              List.mem_cons] at ha
            rcases ha with h | h | rfl | h
            · exact (benign_split a (hbenign a h)).2
            · exact hpl a h
            · rfl
            · exact noLease_mainCleanup_noaddr env info none haddr a h
          | error c =>
            rw [hbr] at ha
            simp only [List.append_assoc, List.singleton_append, List.mem_append,
              List.mem_cons] at ha
            rcases ha with h | h | rfl | h
            · exact (benign_split a (hbenign a h)).2
            · exact hpl a h
            · rfl
            · exact noLease_mainCleanup_noaddr env info (some (.execFailed c)) haddr a h
  · intro heid
    subst heid
    rw [postRun]
    refine forall_trace_tryCatchE ?_ (fun e => forall_trace_pure)
    refine forall_trace_bind ?_ ?_
    · intro a ha
      rw [show leaveTailnet.trace = [.leaveTailnet] from rfl, List.mem_singleton] at ha
      rw [ha]
      rfl
    · intro u1
      refine forall_trace_bind ?_ ?_
      · intro a ha
        exact (benign_split a (benign_postDaemonStep penv a ha)).2
      · intro u2
        refine forall_trace_bind ?_ ?_
        · intro a ha
          exact (benign_split a (benign_unmountStep penv.unmountEnv a ha)).2
        · intro u3
          cases so with
          | true =>
            rw [if_pos rfl]
            rw [if_neg (by decide)]
            exact forall_trace_pure
          | false =>
            rw [if_neg (by simp)]
            exact forall_trace_pure

/-- Witness for `lease_calls_guarded` at a concrete fallback run and a
concrete post phase. -/
theorem lease_calls_guarded_witness :
    Action.isLeaseCall .leaveTailnet = false :=
  (lease_calls_guarded mainEnvSetupFails inputsBase postEnvClean true ("")).1 rfl
    .leaveTailnet (by decide)

end BuildPush
